import Mathlib

/-!
Shallow embedding of the Icelandic SSN Usage API (src/main.py) and proofs
about its validator and its orchestration endpoint.

The repository has two components:
  * a kennitala (Icelandic national identifier) validator, the pydantic
    `validator` `validate_kennitala` on the `kennitala` field of `SSNRequest`
    (src/main.py lines 13-44);
  * an orchestration endpoint `POST /get-usage-data` (`get_usage_data`,
    lines 63-96) that calls a directory lookup (`get_switch_port_data`,
    lines 98-123) and a metrics backend (`get_monitoring_data`,
    lines 125-177) and assembles a `UsageDataResponse`.

Modelling conventions:
  * strings are Lean `String` / `List Char`;
  * Python `datetime` instants are modelled as Unix-epoch seconds (`Int`)
    under a fixed-offset clock, so `end_time - timedelta(hours=24)` is
    `now - 24 * 3600`;
  * the two outbound HTTP calls are parameters of the endpoint function:
    the directory lookup result is a `SwitchPortData` value and the metrics
    call is an `Except String HttpResponse` (`.error msg` models the httpx
    call raising an exception with message `msg`, `.ok r` models a response
    with a status code and a body);
  * Python dictionaries with a fixed key set are Lean structures; the
    monitoring dict, whose key set varies by branch, is a structure of
    `Option` fields (`none` = key absent);
  * raising an exception is an `Except` error value; FastAPI behaviour
    (pydantic validation before the handler runs, `HTTPException` being a
    subclass of `Exception`, a plain return becoming an HTTP 200) is encoded
    where the relevant source line sits.
-/

namespace SSNUsage

/-! ### Validator (src/main.py lines 13-44) -/

/-- The `\d{4}$` tail of the format regex: exactly four digit characters. -/
def fourDigits : List Char → Bool
  | [a, b, c, d] => a.isDigit && b.isDigit && c.isDigit && d.isDigit
  | _ => false

/-- The core shape of the pattern `^\d{6}-?\d{4}$` (lines 17-18): six
digits, an optional dash, then exactly four digits, and nothing else.
Since a dash is not a digit, the optional dash is taken exactly when the
seventh character is a dash. Digits are modelled as ASCII digits; the
Python `\d` also accepts other Unicode decimal digits, but those flow
through `re`, `int` and `datetime` exactly as ASCII digits do, so the
model restricts attention to ASCII digit characters. -/
def matchesPattern : List Char → Bool
  | c1 :: c2 :: c3 :: c4 :: c5 :: c6 :: rest =>
      c1.isDigit && c2.isDigit && c3.isDigit && c4.isDigit && c5.isDigit && c6.isDigit &&
      (if rest.head? = some '-' then fourDigits rest.tail else fourDigits rest)
  | _ => false

/-- Faithful embedding of `re.match` with the source pattern (lines 17-18).
Without `re.MULTILINE`, the Python `$` anchor matches at the end of the
string or just before a newline that ends the string, so the regex accepts
the core shape itself, or the core shape followed by one final newline. -/
def re_match (cs : List Char) : Bool :=
  matchesPattern cs || (cs.getLast? == some '\n' && matchesPattern cs.dropLast)

/-- The dash removal of line 22 (Python string replace of dash by the empty
string): remove every dash. -/
def stripDash (cs : List Char) : List Char := cs.filter (fun c => c != '-')

/-- Value of a decimal digit character. -/
def digitVal (c : Char) : Nat := c.toNat - 48

/-- Python `int` on a string of decimal digits. -/
def natOfDigits (l : List Char) : Nat := l.foldl (fun a c => a * 10 + digitVal c) 0

/-- The local `clean_ssn` of line 22: the input with every dash removed. -/
def clean_ssn (v : String) : List Char := stripDash v.toList

/-- `day = int(clean_ssn[:2])` (line 29). -/
def day (v : String) : Nat := natOfDigits ((clean_ssn v).take 2)

/-- `month = int(clean_ssn[2:4])` (line 30). -/
def month (v : String) : Nat := natOfDigits (((clean_ssn v).drop 2).take 2)

/-- `year = int(clean_ssn[4:6])` (line 31). -/
def year (v : String) : Nat := natOfDigits (((clean_ssn v).drop 4).take 2)

/-- Century resolution (lines 33-37): `1900 + year` if `year > 50`,
else `2000 + year`. -/
def full_year (y : Nat) : Nat := if y > 50 then 1900 + y else 2000 + y

/-- Gregorian leap-year rule, as used by Python `datetime`. -/
def isLeap (y : Nat) : Bool := y % 4 = 0 && (y % 100 ≠ 0 || y % 400 = 0)

/-- Number of days of month `m` in year `y` (for `m` between 1 and 12). -/
def daysInMonth (y m : Nat) : Nat :=
  if m = 2 then (if isLeap y then 29 else 28)
  else if m = 4 ∨ m = 6 ∨ m = 9 ∨ m = 11 then 30
  else 31

/-- `datetime(y, m, d)` (line 40) succeeds exactly when `y` is in
`MINYEAR..MAXYEAR = 1..9999`, `m` is a month and `d` an existing day of
that month. -/
def datetime_valid (y m d : Nat) : Bool :=
  1 ≤ y && y ≤ 9999 && 1 ≤ m && m ≤ 12 && 1 ≤ d && d ≤ daysInMonth y m

/-- The `validate_kennitala` pydantic validator (lines 13-44): returns the
normalized ten-digit string, or the message of the `ValueError` it raises.
The format check is the faithful `re_match` (so an input whose match is due
to a trailing newline passes it and is then caught by the length check,
since the newline survives the dash removal). -/
def validate_kennitala (v : String) : Except String String :=
  if re_match v.toList = false then
    .error "Invalid kennitala format. Expected format: DDMMYY-XXXX or DDMMYYXXXX"
  else if (clean_ssn v).length ≠ 10 then
    .error "Kennitala must be exactly 10 digits"
  else if datetime_valid (full_year (year v)) (month v) (day v) then
    .ok (String.mk (clean_ssn v))
  else
    .error "Invalid date in kennitala"

/-! ### Orchestrator (src/main.py lines 63-177) -/

/-- The dictionary returned by the directory lookup `get_switch_port_data`
(lines 98-123); same shape as the `SwitchPortResponse` model (lines 46-50). -/
structure SwitchPortData where
  switch_number : String
  port_number : String
  success : Bool
  message : String
deriving DecidableEq, Repr

/-- An HTTP response from the metrics backend: its status code and its body
(`response.text`; `response.json()` is the parsed body, kept abstract as the
same opaque payload). -/
structure HttpResponse where
  status_code : Nat
  text : String
deriving DecidableEq, Repr

/-- The `params` dictionary of the metrics range query (lines 142-147); the
fields are sent under the keys `query`, `start`, `end`, `step`. -/
structure QueryRangeParams where
  query : String
  start_ts : Int
  end_ts : Int
  step : String
deriving DecidableEq, Repr

/-- The dictionary `get_monitoring_data` returns (lines 157-177). Its key set
depends on the branch, so each optional key is an `Option` field, `none`
meaning the key is absent. `time_range` holds the pair of window endpoints
(the code stores their ISO renderings; epoch seconds under our clock model). -/
structure MonitoringData where
  status : String
  data : Option String
  query : Option String
  time_range : Option (Int × Int)
  error : Option String
  response : Option String
deriving DecidableEq, Repr

/-- Lines 130-147: the 24-hour window ending at the current instant `now`
(epoch seconds), the selector built as an equality filter on the switch and
port identifiers, and the fixed `1h` step. -/
def query_range_params (switch_number port_number : String) (now : Int) :
    QueryRangeParams :=
  { query := "switch_number=\"" ++ switch_number ++ "\",port_number=\"" ++ port_number ++ "\""
    start_ts := now - 24 * 3600
    end_ts := now
    step := "1h" }

/-- `get_monitoring_data` (lines 125-177). `resp` is the outcome of the
httpx call: `.error msg` models the call raising an exception with message
`msg` (caught at lines 173-177), `.ok r` a response. The function returns the
request parameters it sent together with the result dictionary; it never
raises. -/
def get_monitoring_data (switch_number port_number : String) (now : Int)
    (resp : Except String HttpResponse) : QueryRangeParams × MonitoringData :=
  let params := query_range_params switch_number port_number now
  match resp with
  | .error msg =>
      (params,
       { status := "error", data := none, query := none, time_range := none
         error := some ("Failed to query monitoring system: " ++ msg)
         response := none })
  | .ok r =>
      if r.status_code = 200 then
        (params,
         { status := "success", data := some r.text, query := some params.query
           time_range := some (params.start_ts, params.end_ts)
           error := none, response := none })
      else
        (params,
         { status := "error", data := none, query := none, time_range := none
           error := some ("Monitoring API returned status " ++ toString r.status_code)
           response := some r.text })

/-- The `UsageDataResponse` model (lines 52-57). -/
structure UsageDataResponse where
  kennitala : String
  switch_number : String
  port_number : String
  usage_data : MonitoringData
  timestamp : Int
deriving DecidableEq, Repr

/-- What the endpoint sends to the client: `ok body` is a normal return,
which FastAPI serves with HTTP status 200; `httpError code detail` is a
raised `HTTPException(status_code=code, detail=detail)`. -/
inductive EndpointResult where
  | ok (body : UsageDataResponse)
  | httpError (status_code : Nat) (detail : String)
deriving DecidableEq, Repr

/-- The `try` block of `get_usage_data` (lines 73-93), given the validated
identifier `kennitala` (pydantic has already replaced the field by the
return value of the validator), the directory lookup result `spd`, the metrics
call outcome `resp` and the current instant `now`. An `.error (code, detail)`
is a `HTTPException(code, detail)` raised inside the block (line 79). -/
def get_usage_data_try (kennitala : String) (spd : SwitchPortData)
    (resp : Except String HttpResponse) (now : Int) :
    Except (Nat × String) UsageDataResponse :=
  if spd.success = false then
    .error (404, spd.message)
  else
    .ok { kennitala := kennitala
          switch_number := spd.switch_number
          port_number := spd.port_number
          usage_data := (get_monitoring_data spd.switch_number spd.port_number now resp).2
          timestamp := now }

/-- `get_usage_data` (lines 63-96). The `except Exception as e` at line 95
catches every `Exception`, and the FastAPI `HTTPException` class is a
subclass of `Exception`, so the `HTTPException(404, ...)` raised at line 79
is caught here too and re-raised as an `HTTPException` with status 500 and
detail `"Error processing request: " + str(e)`, where `str` of an
`HTTPException` renders as its status code, a colon and a space, and its
detail. -/
def get_usage_data (kennitala : String) (spd : SwitchPortData)
    (resp : Except String HttpResponse) (now : Int) : EndpointResult :=
  match get_usage_data_try kennitala spd resp now with
  | .ok r => .ok r
  | .error (code, detail) =>
      .httpError 500 ("Error processing request: " ++ toString code ++ ": " ++ detail)

/-- The full `POST /get-usage-data` round trip on a raw request body whose
`kennitala` field is `raw`: pydantic runs `validate_kennitala` first and a
`ValueError` there becomes a 422 validation error with the message in the
per-field detail; otherwise the handler runs on the validated value, which
pydantic has replaced by the return value of the validator. -/
def handle_get_usage_data (raw : String) (spd : SwitchPortData)
    (resp : Except String HttpResponse) (now : Int) : EndpointResult :=
  match validate_kennitala raw with
  | .error msg => .httpError 422 msg
  | .ok clean => get_usage_data clean spd resp now

/-! ### Helper lemmas about the format pattern and dash stripping -/

/-- A decimal digit character is not a dash. -/
theorem isDigit_ne_dash {c : Char} (h : c.isDigit = true) : c ≠ '-' := by
  rintro rfl
  simp [Char.isDigit] at h

/-- A list accepted by `fourDigits` is exactly four digit characters. -/
theorem fourDigits_elim {l : List Char} (h : fourDigits l = true) :
    ∃ w x y z : Char, l = [w, x, y, z] ∧
      w.isDigit = true ∧ x.isDigit = true ∧ y.isDigit = true ∧ z.isDigit = true := by
  rcases l with _ | ⟨w, _ | ⟨x, _ | ⟨y, _ | ⟨z, _ | ⟨u, t⟩⟩⟩⟩⟩
  · simp [fourDigits] at h
  · simp [fourDigits] at h
  · simp [fourDigits] at h
  · simp [fourDigits] at h
  · simp only [fourDigits, Bool.and_eq_true] at h
    obtain ⟨⟨⟨hw, hx⟩, hy⟩, hz⟩ := h
    exact ⟨w, x, y, z, rfl, hw, hx, hy, hz⟩
  · simp [fourDigits] at h

/-- A list matching the format pattern is ten digits, or six digits, a dash
and four digits. -/
theorem matchesPattern_elim {cs : List Char} (h : matchesPattern cs = true) :
    ∃ a b c d e f w x y z : Char,
      (cs = [a, b, c, d, e, f, w, x, y, z] ∨ cs = [a, b, c, d, e, f, '-', w, x, y, z]) ∧
      a.isDigit = true ∧ b.isDigit = true ∧ c.isDigit = true ∧ d.isDigit = true ∧
      e.isDigit = true ∧ f.isDigit = true ∧ w.isDigit = true ∧ x.isDigit = true ∧
      y.isDigit = true ∧ z.isDigit = true := by
  rcases cs with _ | ⟨a, _ | ⟨b, _ | ⟨c, _ | ⟨d, _ | ⟨e, _ | ⟨f, rest⟩⟩⟩⟩⟩⟩
  · simp [matchesPattern] at h
  · simp [matchesPattern] at h
  · simp [matchesPattern] at h
  · simp [matchesPattern] at h
  · simp [matchesPattern] at h
  · simp [matchesPattern] at h
  · simp only [matchesPattern, Bool.and_eq_true] at h
    obtain ⟨⟨⟨⟨⟨⟨ha, hb⟩, hc⟩, hd⟩, he⟩, hf⟩, htail⟩ := h
    by_cases hh : rest.head? = some '-'
    · rw [if_pos hh] at htail
      rcases rest with _ | ⟨r0, rt⟩
      · simp at hh
      · simp only [List.head?_cons, Option.some.injEq] at hh
        subst hh
        obtain ⟨w, x, y, z, rfl, hw, hx, hy, hz⟩ := fourDigits_elim htail
        exact ⟨a, b, c, d, e, f, w, x, y, z, Or.inr rfl,
          ha, hb, hc, hd, he, hf, hw, hx, hy, hz⟩
    · rw [if_neg hh] at htail
      obtain ⟨w, x, y, z, rfl, hw, hx, hy, hz⟩ := fourDigits_elim htail
      exact ⟨a, b, c, d, e, f, w, x, y, z, Or.inl rfl,
        ha, hb, hc, hd, he, hf, hw, hx, hy, hz⟩

/-- Stripping dashes from an all-digit list changes nothing. -/
theorem stripDash_all_digits {l : List Char} (h : l.all Char.isDigit = true) :
    stripDash l = l := by
  induction l with
  | nil => rfl
  | cons c t ih =>
    simp only [List.all_cons, Bool.and_eq_true] at h
    have hc : (c != '-') = true := by
      simp [bne_iff_ne, isDigit_ne_dash h.1]
    simp [stripDash, List.filter_cons, hc]
    simpa [stripDash] using ih h.2

/-- On a list matching the format pattern, dash stripping yields ten digit
characters, still matching the pattern, and further stripping is the
identity. -/
theorem stripDash_matches {cs : List Char} (h : matchesPattern cs = true) :
    (stripDash cs).length = 10 ∧ (stripDash cs).all Char.isDigit = true ∧
    matchesPattern (stripDash cs) = true ∧ stripDash (stripDash cs) = stripDash cs := by
  obtain ⟨a, b, c, d, e, f, w, x, y, z, hshape, ha, hb, hc, hd, he, hf, hw, hx, hy, hz⟩ :=
    matchesPattern_elim h
  have hall : ([a, b, c, d, e, f, w, x, y, z].all Char.isDigit) = true := by
    simp [ha, hb, hc, hd, he, hf, hw, hx, hy, hz]
  have hne : ∀ u : Char, u.isDigit = true → (u != '-') = true := fun u hu => by
    simp [bne_iff_ne, isDigit_ne_dash hu]
  have hsd : stripDash cs = [a, b, c, d, e, f, w, x, y, z] := by
    rcases hshape with rfl | rfl
    · exact stripDash_all_digits hall
    · simp [stripDash, List.filter_cons, hne _ ha, hne _ hb, hne _ hc, hne _ hd,
        hne _ he, hne _ hf, hne _ hw, hne _ hx, hne _ hy, hne _ hz]
  rw [hsd]
  have hw' : w ≠ '-' := isDigit_ne_dash hw
  refine ⟨rfl, hall, ?_, stripDash_all_digits hall⟩
  simp [matchesPattern, fourDigits, ha, hb, hc, hd, he, hf, hw, hx, hy, hz, hw']

/-- A list matching the core shape matches the full regex. -/
theorem re_match_of_matches {cs : List Char} (h : matchesPattern cs = true) :
    re_match cs = true := by
  simp [re_match, h]

/-- Inversion of the full regex: the core shape, or the core shape followed
by a final newline. -/
theorem re_match_elim {cs : List Char} (h : re_match cs = true) :
    matchesPattern cs = true ∨
      (cs.getLast? = some '\n' ∧ matchesPattern cs.dropLast = true) := by
  simp only [re_match, Bool.or_eq_true, Bool.and_eq_true, beq_iff_eq] at h
  exact h

/-- A full-regex match whose dash removal has ten characters matched the
core shape (a trailing-newline match leaves eleven characters). -/
theorem matchesPattern_of_re_match_len {cs : List Char} (h : re_match cs = true)
    (hl : (stripDash cs).length = 10) : matchesPattern cs = true := by
  rcases re_match_elim h with h | ⟨h1, h2⟩
  · exact h
  · exfalso
    have hcs : cs.dropLast ++ ['\n'] = cs := List.dropLast_append_getLast? _ h1
    have hlen := (stripDash_matches h2).1
    rw [← hcs, stripDash, List.filter_append] at hl
    simp only [List.length_append] at hl
    rw [show (List.filter (fun c => c != '-') cs.dropLast) = stripDash cs.dropLast from rfl,
      hlen] at hl
    simp [List.filter] at hl

/-- Inversion of a successful validation: the input matched the format
pattern, its date components passed the calendar check, and the result is
the dash-stripped input. -/
theorem validate_eq_ok {v r : String} (h : validate_kennitala v = .ok r) :
    matchesPattern v.toList = true ∧
    datetime_valid (full_year (year v)) (month v) (day v) = true ∧
    r = String.mk (clean_ssn v) := by
  by_cases hre : re_match v.toList = true
  · by_cases hlen : (clean_ssn v).length = 10
    · have h1 : matchesPattern v.toList = true :=
        matchesPattern_of_re_match_len hre hlen
      rw [validate_kennitala, if_neg (by rw [hre]; simp),
        if_neg (fun hx => hx hlen)] at h
      by_cases h2 : datetime_valid (full_year (year v)) (month v) (day v) = true
      · rw [if_pos h2] at h
        simp at h
        exact ⟨h1, h2, h.symm⟩
      · rw [if_neg h2] at h
        simp at h
    · rw [validate_kennitala, if_neg (by rw [hre]; simp), if_pos hlen] at h
      simp at h
  · have hre' : re_match v.toList = false := by
      cases hx : re_match v.toList
      · rfl
      · exact absurd hx hre
    rw [validate_kennitala, if_pos hre'] at h
    simp at h

/-! ### The claims -/

/-- C1: the claim says a failed directory lookup yields a 404 with the
lookup message as detail, and line 79 indeed raises
`HTTPException(404, switch_port_data[...])`; but the blanket
`except Exception` at line 95 catches that very exception (the FastAPI
`HTTPException` is an `Exception`) and re-raises it as a 500, so the
endpoint actually answers 500 with the 404 rendering embedded in the
detail. This theorem evaluates the endpoint at a failing input. -/
theorem C1_lookup_failure_maps_to_500 :
    handle_get_usage_data "010151-0000"
      { switch_number := "SW001", port_number := "P001", success := false,
        message := "No mapping found" }
      (.error "unreachable") 0 =
    .httpError 500 "Error processing request: 404: No mapping found" := rfl

/-- C2: for every identifier passing the format check with two-digit year
suffix y, the resolved year is 1900 + y when y > 50 and 2000 + y otherwise;
in particular "010151-0000" resolves to 1951-01-01 and "010150-0000" to
2050-01-01, and both validate. -/
theorem C2_century_resolution :
    (∀ v : String, matchesPattern v.toList = true →
        (50 < year v → full_year (year v) = 1900 + year v) ∧
        (year v ≤ 50 → full_year (year v) = 2000 + year v)) ∧
    (full_year (year "010151-0000"), month "010151-0000", day "010151-0000") = (1951, 1, 1) ∧
    (full_year (year "010150-0000"), month "010150-0000", day "010150-0000") = (2050, 1, 1) ∧
    validate_kennitala "010151-0000" = .ok "0101510000" ∧
    validate_kennitala "010150-0000" = .ok "0101500000" := by
  refine ⟨fun v _ => ⟨fun hy => ?_, fun hy => ?_⟩, rfl, rfl, rfl, rfl⟩
  · rw [full_year, if_pos hy]
  · rw [full_year, if_neg (by omega)]

/-- Witness for C2 at the two boundary suffixes 51 and 50. -/
theorem C2_century_resolution_witness :
    full_year (year "010151-0000") = 1900 + year "010151-0000" ∧
    full_year (year "010150-0000") = 2000 + year "010150-0000" :=
  ⟨(C2_century_resolution.1 "010151-0000" rfl).1 (by decide),
   (C2_century_resolution.1 "010150-0000" rfl).2 (by decide)⟩

/-- C3: every string matching the format shape whose date components form a
valid calendar date validates successfully, returning exactly the ten-digit
string obtained by removing the separator. -/
theorem C3_valid_format_and_date_succeeds (v : String)
    (h1 : matchesPattern v.toList = true)
    (h2 : datetime_valid (full_year (year v)) (month v) (day v) = true) :
    (stripDash v.toList).length = 10 ∧
    validate_kennitala v = .ok (String.mk (stripDash v.toList)) := by
  have hlen := (stripDash_matches h1).1
  refine ⟨hlen, ?_⟩
  rw [validate_kennitala, if_neg (by rw [re_match_of_matches h1]; simp),
    if_neg (by show ¬(stripDash v.toList).length ≠ 10; rw [hlen]; exact fun hx => hx rfl),
    if_pos h2]
  rfl

/-- Witness for C3 at a dashed input. -/
theorem C3_valid_format_and_date_succeeds_witness :
    (stripDash ("010151-0000".toList)).length = 10 ∧
    validate_kennitala "010151-0000" = .ok (String.mk (stripDash ("010151-0000".toList))) :=
  C3_valid_format_and_date_succeeds "010151-0000" rfl rfl

/-- C4: every string of the correct format whose date components do not
form an existing calendar date fails validation with the date error. -/
theorem C4_invalid_date_fails (v : String)
    (h1 : matchesPattern v.toList = true)
    (h2 : datetime_valid (full_year (year v)) (month v) (day v) = false) :
    validate_kennitala v = .error "Invalid date in kennitala" := by
  have hlen := (stripDash_matches h1).1
  rw [validate_kennitala, if_neg (by rw [re_match_of_matches h1]; simp),
    if_neg (by show ¬(stripDash v.toList).length ≠ 10; rw [hlen]; exact fun hx => hx rfl),
    if_neg (by rw [h2]; simp)]

/-- Witness for C4 at day 32. -/
theorem C4_invalid_date_fails_witness :
    validate_kennitala "320190-1234" = .error "Invalid date in kennitala" :=
  C4_invalid_date_fails "320190-1234" rfl rfl

/-- C5: when the directory lookup succeeds and the metrics backend answers
with a non-200 status, the endpoint still answers with a normal 200
response whose `usage_data` has status `"error"`, an error message, and the
raw response body attached; the metrics failure is a returned value, never
a raised exception. -/
theorem C5_metrics_non_200_soft_fail (raw clean : String) (spd : SwitchPortData)
    (r : HttpResponse) (now : Int)
    (hval : validate_kennitala raw = .ok clean) (hs : spd.success = true)
    (hr : r.status_code ≠ 200) :
    handle_get_usage_data raw spd (.ok r) now =
      .ok { kennitala := clean
            switch_number := spd.switch_number
            port_number := spd.port_number
            usage_data := { status := "error", data := none, query := none, time_range := none
                            error := some ("Monitoring API returned status " ++ toString r.status_code)
                            response := some r.text }
            timestamp := now } := by
  simp [handle_get_usage_data, hval, get_usage_data, get_usage_data_try, hs,
    get_monitoring_data, hr]

/-- Witness for C5 at a 503 metrics response. -/
theorem C5_metrics_non_200_soft_fail_witness :
    handle_get_usage_data "010151-0000"
      { switch_number := "SW001", port_number := "P001", success := true, message := "Success" }
      (.ok { status_code := 503, text := "service down" }) 0 =
      .ok { kennitala := "0101510000"
            switch_number := "SW001"
            port_number := "P001"
            usage_data := { status := "error", data := none, query := none, time_range := none
                            error := some "Monitoring API returned status 503"
                            response := some "service down" }
            timestamp := 0 } :=
  C5_metrics_non_200_soft_fail "010151-0000" "0101510000"
    { switch_number := "SW001", port_number := "P001", success := true, message := "Success" }
    { status_code := 503, text := "service down" } 0 rfl rfl (by decide)

/-- C6: when the directory lookup succeeds, the switch and port fields of
the returned Usage Record are exactly the values the lookup returned. -/
theorem C6_switch_port_passthrough (raw clean : String) (spd : SwitchPortData)
    (resp : Except String HttpResponse) (now : Int)
    (hval : validate_kennitala raw = .ok clean) (hs : spd.success = true) :
    ∃ body : UsageDataResponse,
      handle_get_usage_data raw spd resp now = .ok body ∧
      body.switch_number = spd.switch_number ∧ body.port_number = spd.port_number := by
  refine ⟨{ kennitala := clean, switch_number := spd.switch_number,
            port_number := spd.port_number,
            usage_data := (get_monitoring_data spd.switch_number spd.port_number now resp).2,
            timestamp := now }, ?_, rfl, rfl⟩
  simp [handle_get_usage_data, hval, get_usage_data, get_usage_data_try, hs]

/-- Witness for C6 at concrete lookup values. -/
theorem C6_switch_port_passthrough_witness :
    ∃ body : UsageDataResponse,
      handle_get_usage_data "010151-0000"
        { switch_number := "SW007", port_number := "P042", success := true, message := "Success" }
        (.error "down") 0 = .ok body ∧
      body.switch_number = "SW007" ∧ body.port_number = "P042" :=
  C6_switch_port_passthrough "010151-0000" "0101510000"
    { switch_number := "SW007", port_number := "P042", success := true, message := "Success" }
    (.error "down") 0 rfl rfl

/-- C7 counterexample: for the dashed input "010151-0000" the successful
response carries the normalized identifier "0101510000", not the original
string as submitted, because the pydantic validator replaces the field by
its normalized return value before the handler reads it. -/
theorem C7_counterexample_identifier_not_original :
    handle_get_usage_data "010151-0000"
      { switch_number := "SW001", port_number := "P001", success := true, message := "Success" }
      (.error "down") 0 =
      .ok { kennitala := "0101510000"
            switch_number := "SW001"
            port_number := "P001"
            usage_data := { status := "error", data := none, query := none, time_range := none
                            error := some "Failed to query monitoring system: down"
                            response := none }
            timestamp := 0 }
    ∧ ("0101510000" : String) ≠ "010151-0000" := ⟨rfl, by decide⟩

/-- C7 amended: for every successful request, the identifier field of the
returned Usage Record equals the normalized ten-digit identifier produced
by validation, that is, the submitted string with its separator removed. -/
theorem C7_amended_identifier_is_normalized (raw clean : String) (spd : SwitchPortData)
    (resp : Except String HttpResponse) (now : Int)
    (hval : validate_kennitala raw = .ok clean) (hs : spd.success = true) :
    ∃ body : UsageDataResponse,
      handle_get_usage_data raw spd resp now = .ok body ∧
      body.kennitala = clean ∧ clean = String.mk (stripDash raw.toList) := by
  refine ⟨{ kennitala := clean, switch_number := spd.switch_number,
            port_number := spd.port_number,
            usage_data := (get_monitoring_data spd.switch_number spd.port_number now resp).2,
            timestamp := now }, ?_, rfl, (validate_eq_ok hval).2.2⟩
  simp [handle_get_usage_data, hval, get_usage_data, get_usage_data_try, hs]

/-- Witness for the amended C7 at a dashed input. -/
theorem C7_amended_identifier_is_normalized_witness :
    ∃ body : UsageDataResponse,
      handle_get_usage_data "010151-0000"
        { switch_number := "SW001", port_number := "P001", success := true, message := "Success" }
        (.error "down") 0 = .ok body ∧
      body.kennitala = "0101510000" ∧
      ("0101510000" : String) = String.mk (stripDash ("010151-0000".toList)) :=
  C7_amended_identifier_is_normalized "010151-0000" "0101510000"
    { switch_number := "SW001", port_number := "P001", success := true, message := "Success" }
    (.error "down") 0 rfl rfl

/-- C8: every metrics query is issued with a window whose start is its end
minus 24 hours of epoch seconds, a fixed step of 1h, and a selector that is
an equality filter on the switch and port identifiers. -/
theorem C8_query_window_and_selector (sw pn : String) (now : Int)
    (resp : Except String HttpResponse) :
    ((get_monitoring_data sw pn now resp).1).start_ts
        = ((get_monitoring_data sw pn now resp).1).end_ts - 24 * 3600 ∧
    ((get_monitoring_data sw pn now resp).1).step = "1h" ∧
    ((get_monitoring_data sw pn now resp).1).query =
      "switch_number=\"" ++ sw ++ "\",port_number=\"" ++ pn ++ "\"" := by
  rcases resp with msg | r
  · simp [get_monitoring_data, query_range_params]
  · by_cases h200 : r.status_code = 200 <;>
      simp [get_monitoring_data, query_range_params, h200]

/-- C9: the validator is idempotent; validating a successful result again
succeeds and returns it unchanged. -/
theorem C9_validator_idempotent (s r : String) (h : validate_kennitala s = .ok r) :
    validate_kennitala r = .ok r := by
  obtain ⟨hm, hdv, rfl⟩ := validate_eq_ok h
  obtain ⟨hlen, hall, hm2, hsd2⟩ := stripDash_matches hm
  have htl : (String.mk (clean_ssn s)).toList = clean_ssn s := rfl
  have hcc : clean_ssn (String.mk (clean_ssn s)) = clean_ssn s := by
    show stripDash (String.mk (clean_ssn s)).toList = clean_ssn s
    rw [htl]
    exact hsd2
  have hm' : matchesPattern (String.mk (clean_ssn s)).toList = true := by
    rw [htl]; exact hm2
  have hday : day (String.mk (clean_ssn s)) = day s := by
    simp only [day]; rw [hcc]
  have hmonth : month (String.mk (clean_ssn s)) = month s := by
    simp only [month]; rw [hcc]
  have hyear : year (String.mk (clean_ssn s)) = year s := by
    simp only [year]; rw [hcc]
  have hdv' : datetime_valid (full_year (year (String.mk (clean_ssn s))))
      (month (String.mk (clean_ssn s))) (day (String.mk (clean_ssn s))) = true := by
    rw [hday, hmonth, hyear]; exact hdv
  have hlen' : (clean_ssn (String.mk (clean_ssn s))).length = 10 := by
    rw [hcc]; exact hlen
  rw [validate_kennitala, if_neg (by rw [re_match_of_matches hm']; simp),
    if_neg (by rw [hlen']; exact fun hx => hx rfl), if_pos hdv', hcc]

/-- Witness for C9 at a dashed input and its normalized result. -/
theorem C9_validator_idempotent_witness :
    validate_kennitala "0101510000" = .ok "0101510000" :=
  C9_validator_idempotent "010151-0000" "0101510000" rfl

/-- C10 counterexample: the claim fails on the source regex, whose `$`
anchor also matches before a trailing newline. The eleven-character input
consisting of ten digits and a final newline matches the format pattern,
its dash removal has eleven characters rather than ten, and the validator
takes exactly the must-be-exactly-10-digits branch, so that branch is
reachable. -/
theorem C10_counterexample_trailing_newline :
    re_match ("0101901234\n".toList) = true ∧
    (stripDash ("0101901234\n".toList)).length = 11 ∧
    validate_kennitala "0101901234\n" = .error "Kennitala must be exactly 10 digits" :=
  ⟨rfl, rfl, rfl⟩

/-- C10 amended: removing the dash from an input matching the core shape
(six digits, optional dash, four digits, nothing more) leaves exactly ten
characters; an input matching the format regex leaves ten characters, or
eleven exactly when the match is due to a trailing newline, and through
those trailing-newline inputs the must-be-exactly-10-digits branch of the
validator is reachable. -/
theorem C10_amended_length_branch_reachable_only_via_newline :
    (∀ cs : List Char, matchesPattern cs = true → (stripDash cs).length = 10) ∧
    (∀ cs : List Char, re_match cs = true →
        (stripDash cs).length = 10 ∨
          ((stripDash cs).length = 11 ∧ cs.getLast? = some '\n')) ∧
    validate_kennitala "0101901234\n" = .error "Kennitala must be exactly 10 digits" := by
  refine ⟨fun cs h => (stripDash_matches h).1, fun cs h => ?_, rfl⟩
  rcases re_match_elim h with h | ⟨h1, h2⟩
  · exact Or.inl (stripDash_matches h).1
  · refine Or.inr ⟨?_, h1⟩
    have hcs : cs.dropLast ++ ['\n'] = cs := List.dropLast_append_getLast? _ h1
    have hlen := (stripDash_matches h2).1
    rw [← hcs, stripDash, List.filter_append]
    simp only [List.length_append]
    rw [show (List.filter (fun c => c != '-') cs.dropLast) = stripDash cs.dropLast from rfl,
      hlen]
    simp [List.filter]

/-- Witness for the amended C10 at a dashed input and at the
trailing-newline input. -/
theorem C10_amended_length_branch_reachable_only_via_newline_witness :
    (stripDash ("010151-0000".toList)).length = 10 ∧
    ((stripDash ("0101901234\n".toList)).length = 10 ∨
      ((stripDash ("0101901234\n".toList)).length = 11 ∧
        ("0101901234\n".toList).getLast? = some '\n')) :=
  ⟨C10_amended_length_branch_reachable_only_via_newline.1 ("010151-0000".toList) rfl,
   C10_amended_length_branch_reachable_only_via_newline.2.1 ("0101901234\n".toList) rfl⟩

end SSNUsage
